import Mathlib

/-!
Verification of `Stimulator.cpp` (mahilab/FES, `mahi::fes::Stimulator`).

The Stimulator orchestrates 1-2 (serial transport, scheduler) pairs.  We embed
its control flow as pure state-passing functions.  Calls into code outside the
source tree (Win32 port I/O, `Scheduler`, `ReadMessage`, `Channel::setup_channel`,
`get_all_messages`) are modelled as an environment oracle `Env` that fixes the
outcome of each external exchange, and every externally visible call is recorded
in an operation trace (`Op`) so that claims about which operations were
attempted can be stated.
-/

namespace MahiFes

/-- A stimulation channel: identity plus safety ceilings
(`Channel.hpp`; the Stimulator only reads these fields). -/
structure Channel where
  name : String
  channel_num : Nat
  board_num : Nat
  max_amplitude : Nat
  max_pulse_width : Nat
deriving DecidableEq

instance : Inhabited Channel := ⟨⟨"", 0, 0, 0, 0⟩⟩

/-- Externally visible operations performed by the Stimulator, recorded as a
trace: port open/configure attempts, per-channel setup frames, scheduler calls,
handle closes, and the per-channel amplitude/pulse-width writes. -/
inductive Op where
  | openPort (i : Nat)
  | configurePort (i : Nat)
  | setupChannel (i : Nat)
  | schedDisable (i : Nat)
  | closeHandle (i : Nat)
  | schedUpdate (i : Nat)
  | sendSync (i : Nat)
  | schedCreate (i : Nat) (sync : Nat) (duration : Nat)
  | setId (i : Nat) (b : Nat)
  | addEvent (c : Nat)
  | setAmp (c : Nat) (v : Nat)
  | writePw (c : Nat) (v : Nat)
deriving DecidableEq

/-- The slice of a `Scheduler`'s state the Stimulator reads or writes:
the device-issued schedule id (`set_id`) and the events added to it. -/
structure SchedulerState where
  schedule_id : Option Nat
  events : List Channel
deriving DecidableEq

/-- The Stimulator's own state (members of `class Stimulator` that the
modelled member functions touch). -/
structure StimState where
  m_enabled : Bool
  m_num_ports : Nat
  m_is_virtual : Bool
  m_scheduler_1 : SchedulerState
  m_scheduler_2 : SchedulerState
  m_channels : List Channel
  amplitudes : List Nat
  pulsewidths : List Nat
  max_amplitudes : List Nat
  max_pulsewidths : List Nat
deriving DecidableEq

/-- Outcomes of the external calls the Stimulator makes, per port index or per
channel: whether `open_port`/`configure_port` succeed, whether each channel's
setup exchange succeeds, the validity and first data byte of each port's
scheduler-creation response, each `Scheduler::update`'s result, the validity
flags of the inbound frames drained by `get_all_messages`, each sync frame's
result, each `Scheduler::add_event`'s result, and the scheduler's per-channel
amplitude/pulse-width lookups. -/
structure Env where
  open_port : Nat → Bool
  configure_port : Nat → Bool
  setup_channel : Nat → Bool
  sched_create : Nat → Bool
  read_valid : Nat → Bool
  read_data0 : Nat → Nat
  sched_update : Nat → Bool
  inbound_valid : List Bool
  send_sync : Nat → Bool
  add_event_ok : Channel → Bool
  get_amp : Channel → Nat
  get_pw : Channel → Nat

/-- `m_schedulers[i]`: the fixed two-element array `{&m_scheduler_1, &m_scheduler_2}`. -/
def getSched (s : StimState) (i : Nat) : SchedulerState :=
  if i = 0 then s.m_scheduler_1 else s.m_scheduler_2

/-- Write back through `m_schedulers[i]`. -/
def setSched (s : StimState) (i : Nat) (sc : SchedulerState) : StimState :=
  if i = 0 then { s with m_scheduler_1 := sc } else { s with m_scheduler_2 := sc }

namespace Stimulator

/-- `Stimulator::is_enabled`. -/
def is_enabled (s : StimState) : Bool := s.m_enabled

/-- `Stimulator::disable`: if enabled, disable every scheduler and close every
handle (`close_stimulator`); otherwise only log.  `m_enabled` is cleared in
both branches. -/
def disable (s : StimState) : StimState × List Op :=
  if is_enabled s then
    ({ s with m_enabled := false },
      (List.range s.m_num_ports).map Op.schedDisable
        ++ (List.range s.m_num_ports).map Op.closeHandle)
  else
    ({ s with m_enabled := false }, [])

/-- The port loop of `Stimulator::enable`: for each port index, attempt
`open_port` then `configure_port`; on the first failure call `disable` and
return `m_enabled` (false after the disable). -/
def open_configure_ports (env : Env) (s : StimState) :
    List Nat → Bool × StimState × List Op
  | [] => (true, s, [])
  | i :: rest =>
    if env.open_port i then
      if env.configure_port i then
        let r := open_configure_ports env s rest
        (r.1, r.2.1, Op.openPort i :: Op.configurePort i :: r.2.2)
      else
        let d := disable s
        (d.1.m_enabled, d.1, Op.openPort i :: Op.configurePort i :: d.2)
    else
      let d := disable s
      (d.1.m_enabled, d.1, Op.openPort i :: d.2)

/-- The channel loop of `Stimulator::initialize_board`: call
`Channel::setup_channel` for each channel index in order and return false on
the first failure. -/
def initialize_board_loop (env : Env) : List Nat → Bool × List Op
  | [] => (true, [])
  | i :: rest =>
    if env.setup_channel i then
      let r := initialize_board_loop env rest
      (r.1, Op.setupChannel i :: r.2)
    else
      (false, [Op.setupChannel i])

/-- `Stimulator::initialize_board`: one setup exchange per channel of
`m_channels`, aborting on the first failure. -/
def initialize_board (env : Env) (s : StimState) : Bool × List Op :=
  initialize_board_loop env (List.range s.m_channels.length)

/-- `Stimulator::enable`: open and configure each port, then initialize the
board; any failure calls `disable` and returns `m_enabled` (false); on full
success sets `m_enabled = true` and returns it. -/
def enable (env : Env) (s : StimState) : Bool × StimState × List Op :=
  let r := open_configure_ports env s (List.range s.m_num_ports)
  if r.1 then
    let ib := initialize_board env r.2.1
    if ib.1 then
      (true, { r.2.1 with m_enabled := true }, r.2.2 ++ ib.2)
    else
      let d := disable r.2.1
      (d.1.m_enabled, d.1, r.2.2 ++ ib.2 ++ d.2)
  else
    r

/-- The snapshot refresh over one scheduler's events (the inner loop of
`Stimulator::update` under `m_mtx`): for each event's channel, overwrite the
cached amplitude, pulse width and ceilings at index `get_channel_num()`. -/
def refresh_snapshot_events (env : Env) (evs : List Channel) (s : StimState) : StimState :=
  evs.foldl (fun st ch =>
    { st with
      amplitudes := st.amplitudes.set ch.channel_num (env.get_amp ch)
      pulsewidths := st.pulsewidths.set ch.channel_num (env.get_pw ch)
      max_amplitudes := st.max_amplitudes.set ch.channel_num ch.max_amplitude
      max_pulsewidths := st.max_pulsewidths.set ch.channel_num ch.max_pulse_width }) s

/-- The full snapshot refresh of `Stimulator::update` (both ports). -/
def refresh_snapshot (env : Env) (s : StimState) : StimState :=
  (List.range s.m_num_ports).foldl
    (fun st j => refresh_snapshot_events env (getSched s j).events st) s

/-- `Stimulator::update`: when enabled, refresh the snapshot, call every
scheduler's `update` accumulating success without short-circuiting, then drain
all inbound frames and force failure if any is invalid; on failure call
`disable` before returning.  When disabled, log and return false. -/
def update (env : Env) (s : StimState) : Bool × StimState × List Op :=
  if is_enabled s then
    let s1 := refresh_snapshot env s
    let updOps := (List.range s.m_num_ports).map Op.schedUpdate
    let success := (List.range s.m_num_ports).all env.sched_update
                     && env.inbound_valid.all id
    if !success then
      let d := disable s1
      (success, d.1, updOps ++ d.2)
    else
      (success, s1, updOps)
  else
    (false, s, [])

/-- Tick duration computed at the top of `Stimulator::create_scheduler`:
`(unsigned int)(1.0 / frequency_ * 1000)` when `frequency_ > 0` (the cast
truncates the positive value, i.e. floors it), else 50.  The double arithmetic
is modelled over ℚ. -/
def scheduler_duration (frequency_ : ℚ) : Nat :=
  if 0 < frequency_ then (⌊1 / frequency_ * 1000⌋).toNat else 50

/-- The port loop of `Stimulator::create_scheduler`.  The C++ body declares a
loop-local `bool success = m_schedulers[i]->create_scheduler(...)` that
SHADOWS the enclosing function's `success` accumulator and is never read; the
call itself is recorded as the `schedCreate` op.  When not virtual, the
handshake response is read: if valid, `set_id` stores its first data byte and
the loop continues; if invalid, the function disables the Stimulator and
returns false early.  Result: `some b` models an early `return b` from the
enclosing function, `none` a completed loop. -/
def create_scheduler_loop (env : Env) (sync_msg duration : Nat) (s : StimState) :
    List Nat → Option Bool × StimState × List Op
  | [] => (none, s, [])
  | i :: rest =>
    if !s.m_is_virtual then
      if env.read_valid i then
        let s' := setSched s i
          { getSched s i with schedule_id := some (env.read_data0 i) }
        let r := create_scheduler_loop env sync_msg duration s' rest
        (r.1, r.2.1,
          Op.schedCreate i sync_msg duration
            :: Op.setId i (env.read_data0 i) :: r.2.2)
      else
        let d := disable s
        (some false, d.1, Op.schedCreate i sync_msg duration :: d.2)
    else
      let r := create_scheduler_loop env sync_msg duration s rest
      (r.1, r.2.1, Op.schedCreate i sync_msg duration :: r.2.2)

/-- `Stimulator::create_scheduler`: compute the tick duration, and when
enabled run the per-port handshake loop.  The outer `bool success = false` is
shadowed inside the loop and never assigned, so when the loop completes the
function returns that outer `false`. -/
def create_scheduler (env : Env) (s : StimState) (sync_msg : Nat)
    (frequency_ : ℚ) : Bool × StimState × List Op :=
  let duration := scheduler_duration frequency_
  if is_enabled s then
    let success := false
    let r := create_scheduler_loop env sync_msg duration s (List.range s.m_num_ports)
    match r.1 with
    | some b => (b, r.2.1, r.2.2)
    | none => (success, r.2.1, r.2.2)
  else
    (false, s, [])

/-- `Stimulator::begin`: requires `is_enabled()`; sends each scheduler's sync
message accumulating success; when disabled, logs and returns false without
touching any state. -/
def begin (env : Env) (s : StimState) : Bool × StimState × List Op :=
  if is_enabled s then
    ((List.range s.m_num_ports).all env.send_sync,
      { s with m_enabled := true },
      (List.range s.m_num_ports).map Op.sendSync)
  else
    (false, s, [])

end Stimulator

/-- Modelled from the spec: `Scheduler::add_event` (Scheduler.cpp is not in
the source tree).  Per §4.4 it "constructs and creates an Event, inserts it
keyed by channel identity" and reports the create exchange's success; on a
failed exchange nothing is inserted.  The exchange outcome is the oracle
`env.add_event_ok`. -/
def Scheduler.add_event (env : Env) (sc : SchedulerState) (channel_ : Channel) :
    Bool × SchedulerState :=
  if env.add_event_ok channel_ then
    (true, { sc with events := sc.events ++ [channel_] })
  else
    (false, sc)

namespace Stimulator

/-- `Stimulator::add_event`: when enabled, delegate to the scheduler of the
channel's board; when disabled, log and return false. -/
def add_event (env : Env) (s : StimState) (channel_ : Channel) :
    Bool × StimState × List Op :=
  if is_enabled s then
    let r := Scheduler.add_event env (getSched s channel_.board_num) channel_
    (r.1, setSched s channel_.board_num r.2, [Op.addEvent channel_.channel_num])
  else
    (false, s, [])

/-- The channel loop of `Stimulator::add_events`: call `add_event` per channel
in list order; if any channel fails to add, return false immediately. -/
def add_events_loop (env : Env) (s : StimState) :
    List Channel → Bool × StimState × List Op
  | [] => (true, s, [])
  | c :: rest =>
    let r := add_event env s c
    if r.1 then
      let r2 := add_events_loop env r.2.1 rest
      (r2.1, r2.2.1, r.2.2 ++ r2.2.2)
    else
      (false, r.2.1, r.2.2)

/-- `Stimulator::add_events`: when enabled, run the fail-fast loop; when
disabled, log and return false. -/
def add_events (env : Env) (s : StimState) (channels_ : List Channel) :
    Bool × StimState × List Op :=
  if is_enabled s then
    add_events_loop env s channels_
  else
    (false, s, [])

/-- `Stimulator::set_amp`: when enabled, forward to the owning board's
scheduler; when disabled, log and do nothing. -/
def set_amp ( _env : Env) (s : StimState) (channel_ : Channel) (amp_ : Nat) :
    List Op :=
  if is_enabled s then
    [Op.setAmp channel_.channel_num amp_]
  else
    []

/-- `Stimulator::write_pw`: when enabled, forward to the owning board's
scheduler; when disabled, log and do nothing. -/
def write_pw ( _env : Env) (s : StimState) (channel_ : Channel) (pw_ : Nat) :
    List Op :=
  if is_enabled s then
    [Op.writePw channel_.channel_num pw_]
  else
    []

/-- `Stimulator::set_amps`: `for (i = 0; i < channels_.size(); i++)
set_amp(channels_[i], amplitudes_[i]);` — the value vector is indexed by the
channel vector's loop counter with no length check (`getD` here stands for the
unchecked `operator[]`). -/
def set_amps (env : Env) (s : StimState) (channels_ : List Channel)
    (amplitudes_ : List Nat) : List Op :=
  ((List.range channels_.length).map
    (fun i => set_amp env s (channels_.getD i default) (amplitudes_.getD i 0))).flatten

/-- `Stimulator::write_pws`: same loop shape as `set_amps` over the
pulse-width vector. -/
def write_pws (env : Env) (s : StimState) (channels_ : List Channel)
    (pulsewidths_ : List Nat) : List Op :=
  ((List.range channels_.length).map
    (fun i => write_pw env s (channels_.getD i default) (pulsewidths_.getD i 0))).flatten

/-- The indices at which `set_amps` reads its value vector `amplitudes_`:
every loop counter value `0 .. channels_.size()-1`. -/
def set_amps_value_reads (channels_ : List Channel) : List Nat :=
  List.range channels_.length

/-- The indices at which `write_pws` reads its value vector `pulsewidths_`. -/
def write_pws_value_reads (channels_ : List Channel) : List Nat :=
  List.range channels_.length

/-- The `Stimulator` constructor: initialize members (enabled false, snapshot
arrays zeroed, ceilings copied from the channels, `m_num_ports = 2` iff the
second COM port is not `"NONE"`, else the header default 1 — the header is
modelled from the spec's "1-2 (Transport, Scheduler) pairs"), then call
`enable()` as the last statement.  Returns the state after construction
together with `enable`'s result and trace. -/
def construct (env : Env) (channels_ : List Channel)
    (com_port_2_ : String) (is_virtual_ : Bool) : StimState × Bool × List Op :=
  let s0 : StimState :=
    { m_enabled := false
      m_num_ports := if com_port_2_ ≠ "NONE" then 2 else 1
      m_is_virtual := is_virtual_
      m_scheduler_1 := { schedule_id := none, events := [] }
      m_scheduler_2 := { schedule_id := none, events := [] }
      m_channels := channels_
      amplitudes := List.replicate channels_.length 0
      pulsewidths := List.replicate channels_.length 0
      max_amplitudes := channels_.map Channel.max_amplitude
      max_pulsewidths := channels_.map Channel.max_pulse_width }
  let e := enable env s0
  (e.2.1, e.1, e.2.2)

end Stimulator

/-- The prefix of a channel list that `add_events` actually attempts: every
channel up to and including the first one whose create exchange fails. -/
def attempted_channels (env : Env) : List Channel → List Channel
  | [] => []
  | c :: rest =>
    if env.add_event_ok c then c :: attempted_channels env rest else [c]

/-- Four concrete channels shaped like the `test_stim.cpp` example
(bicep/tricep/forearm/wrist, max amplitude 100, max pulse width 250),
split across the two boards. -/
def chA : Channel :=
  { name := "bicep", channel_num := 0, board_num := 0
    max_amplitude := 100, max_pulse_width := 250 }

/-- Second concrete channel (board 0). -/
def chB : Channel :=
  { name := "tricep", channel_num := 1, board_num := 0
    max_amplitude := 100, max_pulse_width := 250 }

/-- Third concrete channel (board 1). -/
def chC : Channel :=
  { name := "forearm", channel_num := 2, board_num := 1
    max_amplitude := 100, max_pulse_width := 250 }

/-- Fourth concrete channel (board 1). -/
def chD : Channel :=
  { name := "wrist", channel_num := 3, board_num := 1
    max_amplitude := 100, max_pulse_width := 250 }

/-- An environment in which every external exchange succeeds and every
response is valid; scheduler-creation acks carry first data byte 3. -/
def envAll : Env :=
  { open_port := fun _ => true
    configure_port := fun _ => true
    setup_channel := fun _ => true
    sched_create := fun _ => true
    read_valid := fun _ => true
    read_data0 := fun _ => 3
    sched_update := fun _ => true
    inbound_valid := [true, true]
    send_sync := fun _ => true
    add_event_ok := fun _ => true
    get_amp := fun _ => 10
    get_pw := fun _ => 20 }

/-- Like `envAll` but one drained inbound frame carries a device error flag
among otherwise-valid frames. -/
def envBadFrame : Env := { envAll with inbound_valid := [true, false, true] }

/-- Like `envAll` but the event-create exchange for the channel with index 1
(the second channel) is invalid. -/
def envFailSecond : Env :=
  { envAll with add_event_ok := fun c => !(c.channel_num == 1) }

/-- A concrete enabled two-port Stimulator state with the four channels. -/
def sEn : StimState :=
  { m_enabled := true
    m_num_ports := 2
    m_is_virtual := false
    m_scheduler_1 := { schedule_id := none, events := [] }
    m_scheduler_2 := { schedule_id := none, events := [] }
    m_channels := [chA, chB, chC, chD]
    amplitudes := [0, 0, 0, 0]
    pulsewidths := [0, 0, 0, 0]
    max_amplitudes := [100, 100, 100, 100]
    max_pulsewidths := [250, 250, 250, 250] }

/-- The same state, not enabled. -/
def sOff : StimState := { sEn with m_enabled := false }

/-- Like `envAll` but the third channel's setup exchange (channel loop index
2) fails, as in the spec's Scenario A. -/
def envFailSetup3 : Env := { envAll with setup_channel := fun i => !(i == 2) }

namespace Stimulator

lemma disable_fst (s : StimState) :
    (disable s).1 = { s with m_enabled := false } := by
  simp only [disable]
  split <;> rfl

lemma disable_enabled (s : StimState) : (disable s).1.m_enabled = false := by
  rw [disable_fst]

lemma open_configure_ports_result (env : Env) (s : StimState) (l : List Nat) :
    (open_configure_ports env s l).1
      = l.all (fun i => env.open_port i && env.configure_port i) := by
  induction l with
  | nil => rfl
  | cons i rest ih =>
    simp only [open_configure_ports, List.all_cons]
    by_cases h1 : env.open_port i = true
    · by_cases h2 : env.configure_port i = true
      · simp [h1, h2, ih]
      · simp [h1, h2, disable_enabled]
    · simp [h1, disable_enabled]

lemma open_configure_ports_state (env : Env) (s : StimState) (l : List Nat) :
    (open_configure_ports env s l).2.1
      = if (open_configure_ports env s l).1 then s
        else { s with m_enabled := false } := by
  induction l with
  | nil => rfl
  | cons i rest ih =>
    simp only [open_configure_ports]
    by_cases h1 : env.open_port i = true
    · by_cases h2 : env.configure_port i = true
      · simp [h1, h2, ih]
      · simp [h1, h2, disable_fst, disable_enabled]
    · simp [h1, disable_fst, disable_enabled]

lemma open_configure_ports_channels (env : Env) (s : StimState) (l : List Nat) :
    (open_configure_ports env s l).2.1.m_channels = s.m_channels := by
  rw [open_configure_ports_state]
  split <;> rfl

lemma open_configure_ports_trace_cons (env : Env) (s : StimState) (i : Nat)
    (l : List Nat) :
    ∃ t, (open_configure_ports env s (i :: l)).2.2 = Op.openPort i :: t := by
  simp only [open_configure_ports]
  split_ifs <;> exact ⟨_, rfl⟩

lemma initialize_board_loop_result (env : Env) (l : List Nat) :
    (initialize_board_loop env l).1 = l.all env.setup_channel := by
  induction l with
  | nil => rfl
  | cons i rest ih =>
    simp only [initialize_board_loop, List.all_cons]
    by_cases h : env.setup_channel i = true
    · simp [h, ih]
    · simp [h]

lemma enable_result (env : Env) (s : StimState) :
    (enable env s).1
      = ((List.range s.m_num_ports).all
            (fun i => env.open_port i && env.configure_port i)
          && (List.range s.m_channels.length).all env.setup_channel) := by
  simp only [enable]
  by_cases h : (open_configure_ports env s (List.range s.m_num_ports)).1 = true
  · rw [if_pos h]
    have hch := open_configure_ports_channels env s (List.range s.m_num_ports)
    by_cases h2 :
        (initialize_board env
          (open_configure_ports env s (List.range s.m_num_ports)).2.1).1 = true
    · rw [if_pos h2]
      rw [open_configure_ports_result] at h
      rw [initialize_board, initialize_board_loop_result, hch] at h2
      simp [h, h2]
    · rw [if_neg h2]
      rw [open_configure_ports_result] at h
      rw [initialize_board, initialize_board_loop_result, hch] at h2
      simp only [disable_enabled]
      simp [h, Bool.eq_false_iff.mpr h2]
  · rw [if_neg h]
    rw [open_configure_ports_result] at h
    simp [open_configure_ports_result, Bool.eq_false_iff.mpr h]

lemma enable_state_enabled (env : Env) (s : StimState) :
    (enable env s).2.1.m_enabled = (enable env s).1 := by
  simp only [enable]
  by_cases h : (open_configure_ports env s (List.range s.m_num_ports)).1 = true
  · rw [if_pos h]
    by_cases h2 :
        (initialize_board env
          (open_configure_ports env s (List.range s.m_num_ports)).2.1).1 = true
    · rw [if_pos h2]
    · rw [if_neg h2]
  · rw [if_neg h]
    rw [open_configure_ports_state]
    simp [Bool.eq_false_iff.mpr h]

/-- C3: `enable()` opens then configures each configured port in order, and on
the first port failure or the first channel-setup failure it disables and
returns false with `is_enabled()` false; it returns true (and sets the enabled
flag) exactly when every port open/configure and every channel setup
succeeded, so the Stimulator is never left partially enabled. -/
theorem enable_aborts_on_first_failure_never_partially_enabled
    (env : Env) (s : StimState) :
    ((Stimulator.enable env s).1 = true ↔
      ((List.range s.m_num_ports).all
          (fun i => env.open_port i && env.configure_port i) = true
        ∧ (List.range s.m_channels.length).all env.setup_channel = true))
    ∧ (Stimulator.enable env s).2.1.m_enabled = (Stimulator.enable env s).1 := by
  constructor
  · rw [enable_result, Bool.and_eq_true]
  · exact enable_state_enabled env s

/-- Witness for C3: on the concrete stimulator state where the third
channel's setup exchange fails, `enable` returns false and the enabled flag
stays false. -/
theorem enable_aborts_on_first_failure_never_partially_enabled_witness :
    (Stimulator.enable envFailSetup3 sOff).1 = false
      ∧ (Stimulator.enable envFailSetup3 sOff).2.1.m_enabled = false := by
  have h := enable_aborts_on_first_failure_never_partially_enabled
    envFailSetup3 sOff
  rcases Bool.eq_false_or_eq_true (Stimulator.enable envFailSetup3 sOff).1
      with ht | ht
  · exact absurd (h.1.mp ht).2 (by decide)
  · exact ⟨ht, by rw [h.2, ht]⟩

/-- C4: `disable()` always leaves the enabled flag false; on an
already-disabled Stimulator it performs no scheduler-halt or transport-close
operation (empty trace), and a second consecutive call leaves exactly the
state of the first call, again performing no operation. -/
theorem disable_idempotent (s : StimState) :
    (Stimulator.disable s).1.m_enabled = false
    ∧ (s.m_enabled = false → (Stimulator.disable s).2 = [])
    ∧ (Stimulator.disable (Stimulator.disable s).1).1 = (Stimulator.disable s).1
    ∧ (Stimulator.disable (Stimulator.disable s).1).2 = [] := by
  refine ⟨disable_enabled s, fun h => ?_, ?_, ?_⟩
  · simp [disable, is_enabled, h]
  · rw [disable_fst, disable_fst]
  · rw [disable_fst]
    simp [disable, is_enabled]

/-- Witness for C4: a second consecutive `disable` on the concrete
already-disabled state performs no operation, and neither did the first. -/
theorem disable_idempotent_witness :
    (Stimulator.disable sOff).2 = []
      ∧ (Stimulator.disable (Stimulator.disable sOff).1).2 = [] :=
  ⟨(disable_idempotent sOff).2.1 rfl, (disable_idempotent sOff).2.2.2⟩

lemma enable_trace_head (env : Env) (s : StimState) (h : 0 < s.m_num_ports) :
    ((enable env s).2.2).head? = some (Op.openPort 0) := by
  obtain ⟨n, hn⟩ : ∃ n, s.m_num_ports = n + 1 := ⟨s.m_num_ports - 1, by omega⟩
  have hr : List.range s.m_num_ports = 0 :: (List.range n).map Nat.succ := by
    rw [hn, List.range_succ_eq_map]
  obtain ⟨t, ht⟩ :=
    open_configure_ports_trace_cons env s 0 ((List.range n).map Nat.succ)
  simp only [enable, hr]
  split
  all_goals try split
  all_goals simp [ht]

/-- C9: construction runs `enable()` as its last step: the state returned by
the constructor carries the enabled flag true exactly when every port
open/configure and every channel setup succeeded; the discarded `enable`
return value coincides with that flag; and the very first external operation
of construction is the open attempt on port 0 — so the open/configure/setup
sequence has already been attempted when the constructor returns. -/
theorem construct_runs_enable_last (env : Env) (chs : List Channel)
    (p2 : String) (v : Bool) :
    (Stimulator.construct env chs p2 v).1.m_enabled
      = ((List.range (if p2 ≠ "NONE" then 2 else 1)).all
            (fun i => env.open_port i && env.configure_port i)
          && (List.range chs.length).all env.setup_channel)
    ∧ (Stimulator.construct env chs p2 v).2.1
        = (Stimulator.construct env chs p2 v).1.m_enabled
    ∧ ((Stimulator.construct env chs p2 v).2.2).head? = some (Op.openPort 0) := by
  refine ⟨?_, ?_, ?_⟩
  · simp only [Stimulator.construct]
    rw [enable_state_enabled, enable_result]
  · simp only [Stimulator.construct]
    rw [enable_state_enabled]
  · simp only [Stimulator.construct]
    exact enable_trace_head env _ (by by_cases hp : p2 ≠ "NONE" <;> simp [hp])

lemma refresh_snapshot_events_enabled (env : Env) (evs : List Channel)
    (s : StimState) :
    (refresh_snapshot_events env evs s).m_enabled = s.m_enabled := by
  induction evs generalizing s with
  | nil => rfl
  | cons c t ih =>
    simp only [refresh_snapshot_events, List.foldl_cons]
    exact ih _

lemma refresh_snapshot_enabled (env : Env) (s : StimState) :
    (refresh_snapshot env s).m_enabled = s.m_enabled := by
  simp only [refresh_snapshot]
  suffices h : ∀ (l : List Nat) (st : StimState),
      (l.foldl (fun st j => refresh_snapshot_events env (getSched s j).events st)
          st).m_enabled = st.m_enabled from h _ s
  intro l
  induction l with
  | nil => intro st; rfl
  | cons j t ih =>
    intro st
    simp only [List.foldl_cons]
    rw [ih]
    exact refresh_snapshot_events_enabled env _ st

lemma update_result (env : Env) (s : StimState) (hen : s.m_enabled = true) :
    (update env s).1
      = ((List.range s.m_num_ports).all env.sched_update
          && env.inbound_valid.all id) := by
  rcases Bool.eq_false_or_eq_true
      ((List.range s.m_num_ports).all env.sched_update
        && env.inbound_valid.all id) with hs | hs <;>
    simp [update, is_enabled, hen, hs]

lemma update_state_enabled (env : Env) (s : StimState) (hen : s.m_enabled = true) :
    (update env s).2.1.m_enabled = (update env s).1 := by
  rcases Bool.eq_false_or_eq_true
      ((List.range s.m_num_ports).all env.sched_update
        && env.inbound_valid.all id) with hs | hs <;>
    simp [update, is_enabled, hen, hs, refresh_snapshot_enabled, disable_enabled]

lemma update_trace (env : Env) (s : StimState) (hen : s.m_enabled = true) :
    (update env s).2.2
      = (List.range s.m_num_ports).map Op.schedUpdate
          ++ (if ((List.range s.m_num_ports).all env.sched_update
                  && env.inbound_valid.all id)
              then []
              else (disable (refresh_snapshot env s)).2) := by
  rcases Bool.eq_false_or_eq_true
      ((List.range s.m_num_ports).all env.sched_update
        && env.inbound_valid.all id) with hs | hs <;>
    simp [update, is_enabled, hen, hs]

/-- C2: on an enabled Stimulator, if any frame drained during the tick is
invalid then `update()` returns false and `is_enabled()` is false right after
the call; if every scheduler update succeeds and every drained frame is
valid, `update()` returns true and the Stimulator stays enabled. -/
theorem update_invalid_frame_forces_disable (env : Env) (s : StimState)
    (hen : s.m_enabled = true) :
    (env.inbound_valid.all id = false →
      (Stimulator.update env s).1 = false
        ∧ (Stimulator.update env s).2.1.m_enabled = false)
    ∧ ((List.range s.m_num_ports).all env.sched_update = true →
        env.inbound_valid.all id = true →
        (Stimulator.update env s).1 = true
          ∧ (Stimulator.update env s).2.1.m_enabled = true) := by
  have h1 := update_result env s hen
  have h2 := update_state_enabled env s hen
  constructor
  · intro hf
    have hr : (Stimulator.update env s).1 = false := by
      rw [h1, hf, Bool.and_false]
    exact ⟨hr, by rw [h2, hr]⟩
  · intro hu hv
    have hr : (Stimulator.update env s).1 = true := by
      rw [h1, hu, hv]
      rfl
    exact ⟨hr, by rw [h2, hr]⟩

/-- Witness for C2: with one device-error frame among otherwise-valid inbound
frames, the concrete enabled Stimulator's `update` returns false and leaves
the enabled flag false. -/
theorem update_invalid_frame_forces_disable_witness :
    (Stimulator.update envBadFrame sEn).1 = false
      ∧ (Stimulator.update envBadFrame sEn).2.1.m_enabled = false :=
  (update_invalid_frame_forces_disable envBadFrame sEn rfl).1 rfl

lemma schedUpdate_injective : Function.Injective Op.schedUpdate := by
  intro a b h
  injection h

lemma count_schedUpdate_range (n i : Nat) (h : i < n) :
    ((List.range n).map Op.schedUpdate).count (Op.schedUpdate i) = 1 := by
  apply List.count_eq_one_of_mem
  · exact (List.nodup_range n).map schedUpdate_injective
  · exact List.mem_map_of_mem _ (List.mem_range.mpr h)

lemma count_schedUpdate_disable (st : StimState) (i : Nat) :
    ((disable st).2.count (Op.schedUpdate i)) = 0 := by
  rw [List.count_eq_zero]
  simp only [disable]
  split <;> simp

/-- C6: during an enabled tick, `update()` invokes every configured port's
scheduler update exactly once (one `schedUpdate i` op per port in the trace,
even when the tick fails), and if any single port's scheduler update failed
the tick's overall result is false. -/
theorem update_services_every_scheduler (env : Env) (s : StimState)
    (hen : s.m_enabled = true) :
    (∀ i, i < s.m_num_ports →
      (Stimulator.update env s).2.2.count (Op.schedUpdate i) = 1)
    ∧ (∀ i, i < s.m_num_ports → env.sched_update i = false →
        (Stimulator.update env s).1 = false) := by
  constructor
  · intro i hi
    rw [update_trace env s hen, List.count_append,
      count_schedUpdate_range _ _ hi]
    split
    · rfl
    · rw [count_schedUpdate_disable]
  · intro i hi hf
    rw [update_result env s hen]
    rcases Bool.eq_false_or_eq_true
        ((List.range s.m_num_ports).all env.sched_update) with ha | ha
    · exfalso
      have := List.all_eq_true.mp ha i (List.mem_range.mpr hi)
      rw [hf] at this
      exact Bool.false_ne_true this
    · rw [ha, Bool.false_and]

/-- Witness for C6: on the concrete enabled two-port state, each of the two
schedulers is updated exactly once per tick, and a failing scheduler update
on port 0 makes the tick fail. -/
theorem update_services_every_scheduler_witness :
    (Stimulator.update envAll sEn).2.2.count (Op.schedUpdate 0) = 1
      ∧ (Stimulator.update envAll sEn).2.2.count (Op.schedUpdate 1) = 1 :=
  ⟨(update_services_every_scheduler envAll sEn rfl).1 0 (by decide),
    (update_services_every_scheduler envAll sEn rfl).1 1 (by decide)⟩

/-- C7: `begin()` on a Stimulator that is not enabled returns false, sends no
sync frame (empty trace) and leaves the state — in particular the enabled
flag — unchanged; on an enabled Stimulator it returns the conjunction of the
per-scheduler sync-frame successes. -/
theorem begin_requires_enabled (env : Env) (s : StimState) :
    (s.m_enabled = false →
      (Stimulator.begin env s).1 = false
        ∧ (Stimulator.begin env s).2.1 = s
        ∧ (Stimulator.begin env s).2.2 = [])
    ∧ (s.m_enabled = true →
        (Stimulator.begin env s).1 = (List.range s.m_num_ports).all env.send_sync
          ∧ (Stimulator.begin env s).2.1.m_enabled = true) := by
  constructor
  · intro h
    simp [Stimulator.begin, is_enabled, h]
  · intro h
    simp [Stimulator.begin, is_enabled, h]

/-- Witness for C7: on the concrete disabled state, `begin` fails without
sending anything or changing the state; on the enabled state with all sync
frames succeeding it returns true. -/
theorem begin_requires_enabled_witness :
    ((Stimulator.begin envAll sOff).1 = false
      ∧ (Stimulator.begin envAll sOff).2.1 = sOff
      ∧ (Stimulator.begin envAll sOff).2.2 = [])
    ∧ (Stimulator.begin envAll sEn).1 = (List.range 2).all envAll.send_sync :=
  ⟨(begin_requires_enabled envAll sOff).1 rfl,
    ((begin_requires_enabled envAll sEn).2 rfl).1⟩

lemma create_scheduler_loop_early (env : Env) (sync dur : Nat) (s : StimState)
    (l : List Nat) :
    (create_scheduler_loop env sync dur s l).1 = none
      ∨ (create_scheduler_loop env sync dur s l).1 = some false := by
  induction l generalizing s with
  | nil => left; rfl
  | cons i rest ih =>
    simp only [create_scheduler_loop]
    rcases Bool.eq_false_or_eq_true s.m_is_virtual with hv | hv
    · simp only [hv, Bool.not_true, Bool.false_eq_true, if_false]
      exact ih s
    · rcases Bool.eq_false_or_eq_true (env.read_valid i) with hr | hr
      · simp only [hv, Bool.not_false, if_true, hr]
        exact ih _
      · simp [hv, hr]

/-- C1 (evaluation of the code bug): `Stimulator::create_scheduler` can never
report success.  Its outer `bool success = false` accumulator is shadowed by
the loop-local `bool success = m_schedulers[i]->create_scheduler(...)` and is
never assigned, so whenever the per-port loop completes — in particular when
every handshake response is valid — the function returns false.  Concretely:
on the enabled two-port state with every response valid, both schedulers
receive their device-issued id (the handshake sequence fully succeeded), yet
the call returns false instead of true. -/
theorem create_scheduler_never_reports_success :
    (∀ (env : Env) (s : StimState) (sync : Nat) (f : ℚ),
        (Stimulator.create_scheduler env s sync f).1 = false)
    ∧ (Stimulator.create_scheduler envAll sEn 170 40).1 = false
    ∧ (getSched (Stimulator.create_scheduler envAll sEn 170 40).2.1 0).schedule_id
        = some 3
    ∧ (getSched (Stimulator.create_scheduler envAll sEn 170 40).2.1 1).schedule_id
        = some 3 := by
  have hgen : ∀ (env : Env) (s : StimState) (sync : Nat) (f : ℚ),
      (Stimulator.create_scheduler env s sync f).1 = false := by
    intro env s sync f
    rcases Bool.eq_false_or_eq_true s.m_enabled with hen | hen
    · simp only [create_scheduler, is_enabled, hen, if_true]
      rcases create_scheduler_loop_early env sync
          (scheduler_duration f) s (List.range s.m_num_ports) with h | h <;>
        simp [h]
    · simp [create_scheduler, is_enabled, hen]
  refine ⟨hgen, hgen _ _ _ _, ?_, ?_⟩ <;> decide

/-- C5: the tick duration is `1000/frequency` milliseconds truncated to an
unsigned integer when `frequency > 0` — frequency 40 yields 25 ms — and 50 ms
when `frequency ≤ 0`; and on an enabled, non-virtual Stimulator whose
handshake responses are all valid, `create_scheduler` stores each port's ack
payload first byte as that scheduler's `schedule_id` via `set_id`. -/
theorem create_scheduler_duration_and_schedule_id (env : Env) (s : StimState)
    (sync : Nat) (f : ℚ) (hen : s.m_enabled = true)
    (hv : s.m_is_virtual = false) (hp : s.m_num_ports ≤ 2)
    (hva : ∀ i, env.read_valid i = true) :
    (∀ g : ℚ, 0 < g →
        Stimulator.scheduler_duration g = (⌊(1000 : ℚ) / g⌋).toNat)
    ∧ (∀ g : ℚ, g ≤ 0 → Stimulator.scheduler_duration g = 50)
    ∧ Stimulator.scheduler_duration 40 = 25
    ∧ (∀ i, i < s.m_num_ports →
        (getSched (Stimulator.create_scheduler env s sync f).2.1 i).schedule_id
          = some (env.read_data0 i)) := by
  refine ⟨?_, ?_, ?_, ?_⟩
  · intro g hg
    simp only [scheduler_duration, if_pos hg, one_div, inv_mul_eq_div]
  · intro g hg
    simp [scheduler_duration, not_lt.mpr hg]
  · have h25 : (1 / 40 * 1000 : ℚ) = ((25 : ℤ) : ℚ) := by norm_num
    rw [scheduler_duration, if_pos (by norm_num : (0 : ℚ) < 40), h25,
      Int.floor_intCast]
    rfl
  · have hr1 : List.range 1 = [0] := rfl
    have hr2 : List.range 2 = [0, 1] := rfl
    intro i hi
    have h3 : s.m_num_ports = 0 ∨ s.m_num_ports = 1 ∨ s.m_num_ports = 2 := by
      omega
    rcases h3 with h3 | h3 | h3
    · omega
    · have hi0 : i = 0 := by omega
      subst hi0
      simp [create_scheduler, is_enabled, hen, h3, hr1,
        create_scheduler_loop, hv, hva, setSched, getSched]
    · have hi01 : i = 0 ∨ i = 1 := by omega
      rcases hi01 with hi0 | hi0 <;> subst hi0 <;>
        simp [create_scheduler, is_enabled, hen, h3, hr2,
          create_scheduler_loop, hv, hva, setSched, getSched]

/-- Witness for C5: at frequency 40 the duration is 25 ms, and on the
concrete enabled two-port state with valid handshake responses (first ack
data byte 3), scheduler 0's schedule id becomes 3. -/
theorem create_scheduler_duration_and_schedule_id_witness :
    Stimulator.scheduler_duration 40 = 25
    ∧ (getSched (Stimulator.create_scheduler envAll sEn 170 40).2.1 0).schedule_id
        = some (envAll.read_data0 0) := by
  have h := create_scheduler_duration_and_schedule_id envAll sEn 170 40 rfl rfl
    (by decide) (fun i => rfl)
  exact ⟨h.2.2.1, h.2.2.2 0 (by decide)⟩

lemma setSched_enabled (s : StimState) (i : Nat) (sc : SchedulerState) :
    (setSched s i sc).m_enabled = s.m_enabled := by
  simp only [setSched]
  split <;> rfl

lemma setSched_getSched (s : StimState) (i : Nat) :
    setSched s i (getSched s i) = s := by
  simp only [setSched, getSched]
  split <;> rfl

lemma add_events_loop_spec (env : Env) (chs : List Channel) :
    ∀ s : StimState, s.m_enabled = true →
      (add_events_loop env s chs).1 = chs.all env.add_event_ok
      ∧ (add_events_loop env s chs).2.2
          = (attempted_channels env chs).map (fun c => Op.addEvent c.channel_num)
      ∧ (add_events_loop env s chs).2.1.m_scheduler_1.events
          = s.m_scheduler_1.events
              ++ (chs.takeWhile env.add_event_ok).filter
                  (fun c => c.board_num == 0)
      ∧ (add_events_loop env s chs).2.1.m_scheduler_2.events
          = s.m_scheduler_2.events
              ++ (chs.takeWhile env.add_event_ok).filter
                  (fun c => !(c.board_num == 0))
      ∧ (add_events_loop env s chs).2.1.m_enabled = true := by
  induction chs with
  | nil =>
    intro s hen
    simp [add_events_loop, attempted_channels, hen]
  | cons c rest ih =>
    intro s hen
    have hs : is_enabled s = true := hen
    rcases Bool.eq_false_or_eq_true (env.add_event_ok c) with hc | hc
    · -- the create exchange for `c` succeeds
      have hadd : add_event env s c
          = (true,
              setSched s c.board_num
                { getSched s c.board_num with
                    events := (getSched s c.board_num).events ++ [c] },
              [Op.addEvent c.channel_num]) := by
        simp [add_event, Scheduler.add_event, hs, hc]
      simp only [add_events_loop, hadd]
      obtain ⟨ih1, ih2, ih3, ih4, ih5⟩ := ih
        (setSched s c.board_num
          { getSched s c.board_num with
              events := (getSched s c.board_num).events ++ [c] })
        (by rw [setSched_enabled]; exact hen)
      refine ⟨?_, ?_, ?_, ?_, ?_⟩
      · simp only [List.all_cons, hc, Bool.true_and]
        simpa using ih1
      · simp only [attempted_channels, hc, if_true, List.map_cons]
        simpa using ih2
      · simp only [List.takeWhile_cons, hc, if_true]
        refine Eq.trans (by simpa using ih3) ?_
        by_cases hb : c.board_num = 0 <;>
          simp [setSched, getSched, hb, List.filter_cons]
      · simp only [List.takeWhile_cons, hc, if_true]
        refine Eq.trans (by simpa using ih4) ?_
        by_cases hb : c.board_num = 0 <;>
          simp [setSched, getSched, hb, List.filter_cons]
      · simpa using ih5
    · -- the create exchange for `c` fails: return false at once
      have hadd : add_event env s c = (false, s, [Op.addEvent c.channel_num]) := by
        simp [add_event, Scheduler.add_event, hs, hc, setSched_getSched]
      simp only [add_events_loop, hadd]
      refine ⟨?_, ?_, ?_, ?_, ?_⟩
      · simp [List.all_cons, hc]
      · simp [attempted_channels, hc]
      · simp [List.takeWhile_cons, hc]
      · simp [List.takeWhile_cons, hc]
      · simpa using hen

/-- C8: on an enabled Stimulator, `add_events` attempts one `add_event` per
channel in list order and stops right after the first failing channel (the
trace holds exactly one `addEvent` op per channel of the attempted prefix, so
later channels are never attempted); events created before the failure remain
in their schedulers (no rollback); and the result is true exactly when every
channel's event was added. -/
theorem add_events_fail_fast (env : Env) (s : StimState) (chs : List Channel)
    (hen : s.m_enabled = true) :
    (Stimulator.add_events env s chs).1 = chs.all env.add_event_ok
    ∧ (Stimulator.add_events env s chs).2.2
        = (attempted_channels env chs).map (fun c => Op.addEvent c.channel_num)
    ∧ (Stimulator.add_events env s chs).2.1.m_scheduler_1.events
        = s.m_scheduler_1.events
            ++ (chs.takeWhile env.add_event_ok).filter
                (fun c => c.board_num == 0)
    ∧ (Stimulator.add_events env s chs).2.1.m_scheduler_2.events
        = s.m_scheduler_2.events
            ++ (chs.takeWhile env.add_event_ok).filter
                (fun c => !(c.board_num == 0)) := by
  have hs : is_enabled s = true := hen
  simp only [add_events, hs, if_true]
  obtain ⟨h1, h2, h3, h4, _⟩ := add_events_loop_spec env chs s hen
  exact ⟨h1, h2, h3, h4⟩

/-- Witness for C8: four channels where the second channel's create exchange
is invalid: `add_events` returns false, exactly channels one and two were
attempted (channels three and four never), and the first channel's event is
in place in scheduler 1. -/
theorem add_events_fail_fast_witness :
    (Stimulator.add_events envFailSecond sEn [chA, chB, chC, chD]).1 = false
    ∧ (Stimulator.add_events envFailSecond sEn [chA, chB, chC, chD]).2.2
        = [Op.addEvent 0, Op.addEvent 1]
    ∧ (Stimulator.add_events envFailSecond sEn
        [chA, chB, chC, chD]).2.1.m_scheduler_1.events = [chA] := by
  have h := add_events_fail_fast envFailSecond sEn [chA, chB, chC, chD] rfl
  refine ⟨?_, ?_, ?_⟩
  · rw [h.1]
    decide
  · rw [h.2.1]
    decide
  · rw [h.2.2.1]
    decide

/-- C10: `set_amps` and `write_pws` read their value vector at every index
`0 .. channels_.size()-1` with no length check; each of those reads is in
bounds precisely when the value vector is at least as long as the channel
vector. -/
theorem set_amps_write_pws_read_bounds (channels_ : List Channel)
    (amplitudes_ pulsewidths_ : List Nat) :
    ((∀ i ∈ Stimulator.set_amps_value_reads channels_, i < amplitudes_.length)
        ↔ channels_.length ≤ amplitudes_.length)
    ∧ ((∀ i ∈ Stimulator.write_pws_value_reads channels_,
          i < pulsewidths_.length)
        ↔ channels_.length ≤ pulsewidths_.length) := by
  constructor <;>
  · simp only [set_amps_value_reads, write_pws_value_reads, List.mem_range]
    constructor
    · intro h
      rcases Nat.eq_zero_or_pos channels_.length with h0 | h0
      · omega
      · have := h (channels_.length - 1) (by omega)
        omega
    · intro h i hi
      omega

/-- Witness for C10: with two channels and a two-element amplitude vector the
precondition holds, so the read at loop index 1 is in bounds. -/
theorem set_amps_write_pws_read_bounds_witness :
    (1 : Nat) < ([40, 50] : List Nat).length :=
  (set_amps_write_pws_read_bounds [chA, chB] [40, 50] [60, 70]).1.mpr
    (by decide) 1 (by decide)

end Stimulator

end MahiFes
